import Mathlib

/-!
Verification of the TradingAgents-CN market-data backend against its
natural-language specification.

The Lean definitions below are a shallow embedding of the Python source:

* `PyStr` — helpers mirroring the Python string primitives used by the code
  (`str.replace("-","")`, lexicographic `<` on strings, `str.zfill`).
* `StockSyncRouter` — `app/routers/stock_sync.py`, the projection of the
  latest historical bar into the `market_quotes` store.
* `HealthMonitor` — `tradingagents/dataflows/providers/health_monitor.py`,
  the `_update_metrics` state transition.
* `ConsistencyChecker` — `app/services/data_consistency_checker.py`,
  the weighted confidence score and the recommendation ladder.
* `MultiSourceSync` — `app/services/multi_source_basics_sync_service.py`,
  the singleton-guarded full sync with batched, retried bulk writes.
* `CacheOptimizer` — `app/utils/cache_optimizer.py`, the L1 LRU cache.
* `Notifications` — `app/services/notifications_service.py`, publish with
  retention pruning.

Numeric fields that are Python floats are modelled as `ℚ` (the code only
adds, divides and compares them; no claim rests on float rounding), wall
clock instants as integers, and MongoDB collections as Lean lists of
documents with explicit upsert functions.
-/

namespace PyStr

/-- Lexicographic strict comparison of character lists by code point, the
order Python uses for `str < str`. -/
def lexLt : List Char → List Char → Bool
  | [], [] => false
  | [], _ :: _ => true
  | _ :: _, [] => false
  | a :: as, b :: bs => if a < b then true else if b < a then false else lexLt as bs

/-- Python `a < b` on strings. -/
def pyLt (a b : String) : Bool := lexLt a.data b.data

/-- Python `a >= b` on strings (total order, so `a >= b ↔ ¬ a < b`). -/
def pyGe (a b : String) : Bool := !(pyLt a b)

/-- Python `s.zfill(width)` for the non-signed strings the code feeds it:
left-pad with `'0'` up to `width` characters. -/
def zfill (s : String) (width : Nat) : String :=
  String.mk (List.replicate (width - s.length) '0') ++ s

/-- Python truthiness of an optional string: `None` and `""` are falsy. -/
def strTruthy : Option String → Bool
  | none => false
  | some s => s != ""

end PyStr

namespace StockSyncRouter

/-- One `stock_daily_quotes` document, restricted to the fields
`_sync_latest_to_market_quotes` reads from the latest bar. -/
structure DailyBarDoc where
  symbol : String
  trade_date : Option String
  close : Option ℚ
  openPx : Option ℚ
  high : Option ℚ
  low : Option ℚ
  volume : Option ℚ
  amount : Option ℚ
  pct_chg : Option ℚ
  pre_close : Option ℚ
deriving DecidableEq

/-- One `market_quotes` document (the fields the `$set` in
`_sync_latest_to_market_quotes` writes). -/
structure MarketQuoteDoc where
  code : String
  symbol : String
  close : Option ℚ
  openPx : Option ℚ
  high : Option ℚ
  low : Option ℚ
  volume : Option ℚ
  amount : Option ℚ
  pct_chg : Option ℚ
  pre_close : Option ℚ
  trade_date : Option String
  updated_at : Nat
deriving DecidableEq

/-- `str(trade_date).replace("-", "")` — with a one-character pattern and an
empty replacement this removes every `'-'`. -/
def normalizeDate (s : String) : String :=
  String.mk (s.data.filter (fun c => c ≠ '-'))

/-- The `quote_data` dict built from the latest historical bar
(`stock_sync.py` lines 72–85); `updated_at` is the wall clock at write
time. -/
def quoteDataOf (symbol6 : String) (latest : DailyBarDoc) (now : Nat) : MarketQuoteDoc :=
  { code := symbol6
    symbol := symbol6
    close := latest.close
    openPx := latest.openPx
    high := latest.high
    low := latest.low
    volume := latest.volume
    amount := latest.amount
    pct_chg := latest.pct_chg
    pre_close := latest.pre_close
    trade_date := latest.trade_date
    updated_at := now }

/-- `_sync_latest_to_market_quotes` (`stock_sync.py` lines 25–98), as a
function from the latest `stock_daily_quotes` document and the existing
`market_quotes` document for the symbol to the stored quote afterwards.
`none` for `latestDoc` is the early return when the symbol has no bars.
The skip guard compares the two trade dates as Python strings after
stripping `'-'`, and only fires when both are present and non-empty. -/
def syncLatestToMarketQuotes (symbol6 : String) (latestDoc : Option DailyBarDoc)
    (existingQuote : Option MarketQuoteDoc) (now : Nat) : Option MarketQuoteDoc :=
  match latestDoc with
  | none => existingQuote
  | some latest =>
    let historicalTradeDate := latest.trade_date
    let skip :=
      match existingQuote with
      | none => false
      | some q =>
        let existingTradeDate := q.trade_date
        if PyStr.strTruthy existingTradeDate && PyStr.strTruthy historicalTradeDate then
          PyStr.pyGe (normalizeDate (existingTradeDate.getD ""))
            (normalizeDate (historicalTradeDate.getD ""))
        else false
    if skip then existingQuote
    else some (quoteDataOf symbol6 latest now)

end StockSyncRouter

namespace HealthMonitor

/-- `DataSourceStatus` enum. -/
inductive DataSourceStatus where
  | healthy
  | degraded
  | unavailable
  | unknown
deriving DecidableEq

/-- `HealthMetrics` dataclass; probe instants are integers, response times
rationals (seconds). -/
structure HealthMetrics where
  status : DataSourceStatus := .unknown
  last_success : Option Nat := none
  last_failure : Option Nat := none
  success_count : Nat := 0
  failure_count : Nat := 0
  avg_response_time : ℚ := 0
  last_response_time : ℚ := 0
  consecutive_failures : Nat := 0
  error_messages : List String := []
  last_check : Option Nat := none
deriving DecidableEq

/-- `self.failure_threshold = 3` from `DataSourceHealthMonitor.__init__`. -/
def failureThreshold : Nat := 3

/-- `self.response_time_threshold = 30.0` from
`DataSourceHealthMonitor.__init__`. -/
def responseTimeThreshold : ℚ := 30

/-- Keep the most recent ≤ 10 error messages: the code appends one message
and pops the front when the length exceeds 10. -/
def trimErrorMessages (l : List String) : List String :=
  if l.length > 10 then l.drop 1 else l

/-- `DataSourceHealthMonitor._update_metrics` (lines 221–263) acting on one
provider's `HealthMetrics`. `success` is the probe outcome flag the callers
pass, `responseTime` the measured elapsed seconds, `now` the wall clock. -/
def updateMetrics (m : HealthMetrics) (success : Bool) (errorMessage : Option String)
    (responseTime : ℚ) (now : Nat) : HealthMetrics :=
  let m := { m with last_check := some now }
  if success then
    let m := { m with success_count := m.success_count + 1
                      last_success := some now
                      consecutive_failures := 0
                      last_response_time := responseTime }
    let m :=
      if m.avg_response_time = 0 then { m with avg_response_time := responseTime }
      else { m with avg_response_time := (m.avg_response_time + responseTime) / 2 }
    if m.failure_count = 0 then { m with status := .healthy }
    else { m with status := .degraded }
  else
    let m := { m with failure_count := m.failure_count + 1
                      last_failure := some now
                      consecutive_failures := m.consecutive_failures + 1
                      last_response_time := responseTime }
    let m :=
      match errorMessage with
      | some msg => { m with error_messages := trimErrorMessages (m.error_messages ++ [msg]) }
      | none => m
    if m.consecutive_failures ≥ failureThreshold then { m with status := .unavailable }
    else { m with status := .degraded }

end HealthMonitor

namespace ConsistencyChecker

/-- The `difference_pct` field of a comparison: Python `None`, `float('inf')`
(primary average zero, secondary non-zero) or a finite relative delta. -/
inductive DiffPct where
  | missing
  | infinite
  | finite (q : ℚ)
deriving DecidableEq

/-- `FinancialMetricComparison` dataclass. -/
structure FinancialMetricComparison where
  metric_name : String
  primary_value : Option ℚ
  secondary_value : Option ℚ
  difference_pct : DiffPct
  is_significant : Bool
  tolerance : ℚ
deriving DecidableEq

/-- `DataConsistencyResult` dataclass; the `differences` / `details` payload
maps (pure reporting data echoed from the comparisons) are not modelled. -/
structure DataConsistencyResult where
  is_consistent : Bool
  primary_source : String
  secondary_source : String
  confidence_score : ℚ
  recommended_action : String
deriving DecidableEq

/-- `self.metric_weights` from `DataConsistencyChecker.__init__`. -/
def metricWeights : List (String × ℚ) :=
  [("pe", 25/100), ("pb", 25/100), ("total_mv", 20/100),
   ("price", 15/100), ("volume", 10/100), ("turnover_rate", 5/100)]

/-- `self.metric_weights.get(comp.metric_name, 0.1)`. -/
def weightOf (name : String) : ℚ :=
  (metricWeights.lookup name).getD (10/100)

/-- Per-comparison consistency score from `_calculate_overall_consistency`:
`max(0, 1 − difference_pct / tolerance)` when the delta is finite, else 0. -/
def consistencyScoreOf (comp : FinancialMetricComparison) : ℚ :=
  match comp.difference_pct with
  | .finite d => max 0 (1 - d / comp.tolerance)
  | _ => 0

/-- Accumulation step of the loop in `_calculate_overall_consistency`: the
pair is `(total_weight, weighted_score)`. -/
def accumulateComparison (acc : ℚ × ℚ) (comp : FinancialMetricComparison) : ℚ × ℚ :=
  (acc.1 + weightOf comp.metric_name,
   acc.2 + weightOf comp.metric_name * consistencyScoreOf comp)

/-- `DataConsistencyChecker._calculate_overall_consistency` (lines 217–289). -/
def calculateOverallConsistency (comparisons : List FinancialMetricComparison)
    (primarySource secondarySource : String) : DataConsistencyResult :=
  if comparisons = [] then
    { is_consistent := false
      primary_source := primarySource
      secondary_source := secondarySource
      confidence_score := 0
      recommended_action := "use_primary_only" }
  else
    let acc := comparisons.foldl accumulateComparison (0, 0)
    let totalWeight := acc.1
    let weightedScore := acc.2
    let confidence := if totalWeight > 0 then weightedScore / totalWeight else 0
    let significantDiffs := comparisons.countP (fun c => c.is_significant)
    let isConsistent : Bool := decide ((significantDiffs : ℚ) ≤ (comparisons.length : ℚ) * (3/10))
    let action :=
      if confidence > 8/10 then "use_either"
      else if confidence > 6/10 then "use_primary_with_warning"
      else if confidence > 3/10 then "use_primary_only"
      else "investigate_sources"
    { is_consistent := isConsistent
      primary_source := primarySource
      secondary_source := secondarySource
      confidence_score := confidence
      recommended_action := action }

/-- The confidence-score formula exactly as the specification words it
(§4.4: "score = Σ weight_i × max(0, 1 − delta_i / tolerance_i)"), with no
normalization by the total weight; stated to be compared with the score the
code computes. -/
def specClaimedScore (comparisons : List FinancialMetricComparison) : ℚ :=
  (comparisons.map (fun c => weightOf c.metric_name * consistencyScoreOf c)).sum

/-- The total weight of the compared fields. -/
def totalWeightOf (comparisons : List FinancialMetricComparison) : ℚ :=
  (comparisons.map (fun c => weightOf c.metric_name)).sum

/-- The decision ladder of §4.4 as a function of the confidence score
(`use-either` / `use-primary-warn` / `use-primary-only` / `investigate`,
which the code spells `use_either` / `use_primary_with_warning` /
`use_primary_only` / `investigate_sources`). -/
def specDecision (score : ℚ) : String :=
  if score > 8/10 then "use_either"
  else if score > 6/10 then "use_primary_with_warning"
  else if score > 3/10 then "use_primary_only"
  else "investigate_sources"

end ConsistencyChecker

namespace CacheOptimizer

/-- `CacheEntry` from `cache_optimizer.py`; `α` is the cached value type
(`Any` in the source), instants are integers (`time.time()` seconds). -/
structure CacheEntry (α : Type) where
  key : String
  value : α
  created_at : Int
  ttl : Int
  hits : Nat
  last_access : Int
deriving DecidableEq

/-- `CacheEntry.is_expired`: `(time.time() - self.created_at) > self.ttl`. -/
def CacheEntry.isExpired {α : Type} (e : CacheEntry α) (now : Int) : Bool :=
  now - e.created_at > e.ttl

/-- `CacheEntry.touch`. -/
def CacheEntry.touch {α : Type} (e : CacheEntry α) (now : Int) : CacheEntry α :=
  { e with last_access := now, hits := e.hits + 1 }

/-- A fresh entry as built by `CacheEntry.__init__` at time `now`. -/
def CacheEntry.mkNew {α : Type} (key : String) (value : α) (ttl : Int) (now : Int) :
    CacheEntry α :=
  { key := key, value := value, created_at := now, ttl := ttl, hits := 0, last_access := now }

/-- `LRUCache`: the `OrderedDict` is a key-unique association list with the
least-recently-used entry at the head (Python's dict front). -/
structure LRUCache (α : Type) where
  max_size : Nat
  cache : List (String × CacheEntry α)
  hits : Nat
  misses : Nat
deriving DecidableEq

/-- Dictionary lookup `self.cache[key]` (keys are unique in an
`OrderedDict`; `List.lookup` returns the first binding). -/
def LRUCache.lookup {α : Type} (c : LRUCache α) (key : String) : Option (CacheEntry α) :=
  List.lookup key c.cache

/-- `del self.cache[key]` (an `OrderedDict` holds each key once, so removing
every binding of the key is the same operation). -/
def removeKey {α : Type} (l : List (String × CacheEntry α)) (key : String) :
    List (String × CacheEntry α) :=
  l.filter (fun p => p.1 != key)

/-- `self.cache.move_to_end(key)` with the entry to store at the end. -/
def moveToEnd {α : Type} (l : List (String × CacheEntry α)) (key : String)
    (e : CacheEntry α) : List (String × CacheEntry α) :=
  removeKey l key ++ [(key, e)]

/-- `LRUCache.get` (lines 50–69): returns the value (or `None`) and the cache
afterwards. A missing key or an expired entry counts a miss — the expired
entry is deleted — and a live hit is moved to the end and touched. -/
def LRUCache.get {α : Type} (c : LRUCache α) (key : String) (now : Int) :
    Option α × LRUCache α :=
  match c.lookup key with
  | none => (none, { c with misses := c.misses + 1 })
  | some entry =>
    if entry.isExpired now then
      (none, { c with cache := removeKey c.cache key, misses := c.misses + 1 })
    else
      let entry := entry.touch now
      (some entry.value, { c with cache := moveToEnd c.cache key entry, hits := c.hits + 1 })

/-- `LRUCache.set` (lines 71–87): an existing key has its `value` and `ttl`
overwritten in place (`created_at`, `hits`, `last_access` untouched) and is
moved to the end; otherwise the oldest entry is evicted when the cache is
full and a fresh entry is appended. -/
def LRUCache.set {α : Type} (c : LRUCache α) (key : String) (value : α) (ttl : Int)
    (now : Int) : LRUCache α :=
  match c.lookup key with
  | some entry =>
    let entry := { entry with value := value, ttl := ttl }
    { c with cache := moveToEnd c.cache key entry }
  | none =>
    let c :=
      if c.cache.length ≥ c.max_size then { c with cache := c.cache.drop 1 } else c
    { c with cache := c.cache ++ [(key, CacheEntry.mkNew key value ttl now)] }

/-- A sequence of `get` calls: returns the answers and the final cache. -/
def LRUCache.runGets {α : Type} (c : LRUCache α) :
    List (String × Int) → List (Option α) × LRUCache α
  | [] => ([], c)
  | (key, now) :: rest =>
    let r := c.get key now
    let rs := r.2.runGets rest
    (r.1 :: rs.1, rs.2)

end CacheOptimizer

namespace Notifications

/-- A persisted `notifications` document. `id` stands for the MongoDB
`_id` (`ObjectId`, unique per insert); `created_at` is the tz-aware instant
`now_tz()` in seconds. The free-form `metadata` map is not modelled. -/
structure NotificationDoc where
  id : Nat
  user_id : String
  ntype : String
  title : String
  content : Option String
  link : Option String
  source : Option String
  severity : String
  status : String
  created_at : Int
deriving DecidableEq

/-- The `NotificationCreate` payload fields `create_and_publish` reads. -/
structure NotificationCreate where
  user_id : String
  ntype : String
  title : String
  content : Option String
  link : Option String
  source : Option String
  severity : Option String
deriving DecidableEq

/-- The `notifications` collection plus the id the next insert receives. -/
structure NotifStore where
  docs : List NotificationDoc
  nextId : Nat
deriving DecidableEq

/-- `self.retain_days = 90`. -/
def retainDays : Nat := 90

/-- `self.max_per_user = 1000`. -/
def maxPerUser : Nat := 1000

/-- `timedelta(days=self.retain_days)` in seconds. -/
def retentionCutoff (now : Int) : Int := now - (retainDays * 86400 : Nat)

/-- Ascending `created_at` order used by `.sort("created_at", 1)`. -/
def createdAtLe (a b : NotificationDoc) : Prop := a.created_at ≤ b.created_at

instance : DecidableRel createdAtLe := fun a b => by
  unfold createdAtLe
  infer_instance

/-- The `delete_many({"user_id": …, "created_at": {"$lt": now − 90 days}})`
step of `create_and_publish`. -/
def pruneOld (uid : String) (now : Int) (docs : List NotificationDoc) :
    List NotificationDoc :=
  docs.filter (fun d => !(d.user_id == uid && decide (d.created_at < retentionCutoff now)))

/-- The quota step of `create_and_publish`: when the user holds more than
`max_per_user` documents, delete the `count − max_per_user` oldest ones
(`find ... .sort("created_at", 1).limit(skip)` is modelled by sorting
ascending by `created_at` and taking the first `skip` ids, then
`delete_many({"_id": {"$in": ids}})`). -/
def pruneQuota (uid : String) (docs : List NotificationDoc) : List NotificationDoc :=
  let count := docs.countP (fun d => d.user_id == uid)
  if count > maxPerUser then
    let skip := count - maxPerUser
    let userDocs := docs.filter (fun d => d.user_id == uid)
    let sorted := userDocs.insertionSort createdAtLe
    let ids := (sorted.take skip).map (fun d => d.id)
    docs.filter (fun d => !(ids.contains d.id))
  else docs

/-- `NotificationsService.create_and_publish` (lines 34–89) as a transition
on the collection: insert the new unread document, then run the two pruning
steps for the payload's user. Returns the new store and the inserted
document's id. The live WebSocket broadcast has no effect on the store and
is not modelled. -/
def createAndPublish (store : NotifStore) (payload : NotificationCreate) (now : Int) :
    NotifStore × Nat :=
  let doc : NotificationDoc :=
    { id := store.nextId
      user_id := payload.user_id
      ntype := payload.ntype
      title := payload.title
      content := payload.content
      link := payload.link
      source := payload.source
      severity := payload.severity.getD "info"
      status := "unread"
      created_at := now }
  let docs1 := store.docs ++ [doc]
  let docs2 := pruneOld payload.user_id now docs1
  let docs3 := pruneQuota payload.user_id docs2
  ({ docs := docs3, nextId := store.nextId + 1 }, store.nextId)

end Notifications

namespace MultiSourceSync

/-- The per-stock valuation map a daily-basic row carries. -/
abbrev DailyMetrics := List (String × ℚ)

/-- One row of the stock-list dataframe, restricted to the fields
`run_full_sync` reads; every field may be missing (`row.get(...)`). -/
structure StockRow where
  name : Option String
  area : Option String
  industry : Option String
  market : Option String
  list_date : Option String
  ts_code : Option String
  symbol : Option String
deriving DecidableEq

/-- A `stock_basic_info` document as built in `run_full_sync` lines 265–281. -/
structure BasicDoc where
  code : String
  symbol : String
  name : String
  area : String
  industry : String
  market : String
  list_date : String
  sse : String
  full_symbol : String
  category : String
  source : String
  updated_at : Nat
  financial_snapshot : DailyMetrics
deriving DecidableEq

/-- Modelled from the spec: `app.services.basics_sync.add_financial_metrics`
— the `basics_sync.processing` module that defines it is not in the source
tree (only `basics_sync/utils.py` is). The spec (§3 *StockBasicInfo*)
describes its effect as attaching the optional `financial_snapshot` map of
valuation metrics from the daily data to the document; we model it as
storing the row's daily metrics as the document's snapshot, leaving every
identification field unchanged. -/
def addFinancialMetrics (doc : BasicDoc) (dailyMetrics : DailyMetrics) : BasicDoc :=
  { doc with financial_snapshot := dailyMetrics }

/-- `MultiSourceBasicsSyncService._generate_full_symbol` (lines 340–370). -/
def generateFullSymbol (code : String) : String :=
  if code = "" then ""
  else
    let code := code.trim
    if code.length ≠ 6 then code
    else if code.startsWith "60" || code.startsWith "68" || code.startsWith "90" then
      code ++ ".SS"
    else if code.startsWith "00" || code.startsWith "30" || code.startsWith "20" then
      code ++ ".SZ"
    else if code.startsWith "8" || code.startsWith "4" then code ++ ".BJ"
    else code

/-- A pending `UpdateOne({"code": …, "source": …}, {"$set": doc}, upsert=True)`. -/
structure UpdateOp where
  filterCode : String
  filterSource : String
  doc : BasicDoc
deriving DecidableEq

/-- Apply one upsert to the `stock_basic_info` collection, returning the new
collection and the `(upserted, modified)` deltas MongoDB reports: an absent
`(code, source)` key inserts (upserted 1), a present key is replaced and
counts as modified only when the stored document actually changes. -/
def applyOp (store : List BasicDoc) (op : UpdateOp) : List BasicDoc × Nat × Nat :=
  if store.any (fun d => d.code == op.filterCode && d.source == op.filterSource) then
    let store2 := store.map (fun d =>
      if d.code == op.filterCode && d.source == op.filterSource then op.doc else d)
    (store2, 0, if store2 = store then 0 else 1)
  else (store ++ [op.doc], 1, 0)

/-- Apply a batch of upserts in order, accumulating the result counts. -/
def applyOps : List BasicDoc → List UpdateOp → List BasicDoc × Nat × Nat
  | store, [] => (store, 0, 0)
  | store, op :: rest =>
    let r := applyOp store op
    let rr := applyOps r.1 rest
    (rr.1, r.2.1 + rr.2.1, r.2.2 + rr.2.2)

/-- Outcome of one `bulk_write` attempt, as seen by
`_execute_bulk_write_with_retry`: normal completion, `asyncio.TimeoutError`,
or any other exception. -/
inductive BulkAttempt where
  | success
  | timeout
  | failure
deriving DecidableEq

/-- The `while retry_count < max_retries` loop of
`_execute_bulk_write_with_retry` (lines 98–141). The fuel argument equals
`max_retries − retry_count`, so fuel 0 is exactly the loop guard failing
(which returns the initial `inserted = updated = 0`). On success the batch
is applied to the store and the reported counts returned; on timeout the
retry counter is bumped and, if another attempt remains, the loop sleeps
`2 ** retry_count` seconds (recorded in the returned sleep trace) and
retries; otherwise — and on any non-timeout exception — it returns `(0, 0)`
without touching the store. -/
def bulkWriteLoop (attempt : Nat → BulkAttempt) (maxRetries : Nat) (store : List BasicDoc)
    (ops : List UpdateOp) : Nat → Nat → List Nat → (List BasicDoc × Nat × Nat) × List Nat
  | 0, _, sleeps => ((store, 0, 0), sleeps)
  | fuel + 1, retryCount, sleeps =>
    match attempt retryCount with
    | .success => (applyOps store ops, sleeps)
    | .timeout =>
      if retryCount + 1 < maxRetries then
        bulkWriteLoop attempt maxRetries store ops fuel (retryCount + 1)
          (sleeps ++ [2 ^ (retryCount + 1)])
      else ((store, 0, 0), sleeps)
    | .failure => ((store, 0, 0), sleeps)

/-- `MultiSourceBasicsSyncService._execute_bulk_write_with_retry`. -/
def executeBulkWriteWithRetry (attempt : Nat → BulkAttempt) (store : List BasicDoc)
    (ops : List UpdateOp) (maxRetries : Nat) : (List BasicDoc × Nat × Nat) × List Nat :=
  bulkWriteLoop attempt maxRetries store ops maxRetries 0 []

/-- `SyncStats` dataclass (the unused `source_stats` map is not modelled). -/
structure SyncStats where
  job : String := "stock_basics_multi_source"
  data_type : String := "stock_basics"
  status : String := "idle"
  started_at : Option Nat := none
  finished_at : Option Nat := none
  total : Nat := 0
  inserted : Nat := 0
  updated : Nat := 0
  errors : Nat := 0
  last_trade_date : Option String := none
  data_sources_used : List String := []
  message : Option String := none
deriving DecidableEq

/-- The service's observable state: the `_running` flag, the `_last_status`
cache, the `sync_status` document for this job and the `stock_basic_info`
collection. -/
structure ServiceState where
  running : Bool
  lastStatus : Option SyncStats
  statusDoc : Option SyncStats
  basics : List BasicDoc
deriving DecidableEq

/-- The `{"job": JOB_KEY, "status": "never_run"}` default of `get_status`. -/
def neverRunStatus : SyncStats := { status := "never_run" }

/-- `MultiSourceBasicsSyncService.get_status` (lines 66–77): the in-memory
`_last_status` if set, else the persisted `sync_status` document, else the
`never_run` default. -/
def getStatus (st : ServiceState) : SyncStats :=
  match st.lastStatus with
  | some s => s
  | none =>
    match st.statusDoc with
    | some d => d
    | none => neverRunStatus

/-- `_persist_status`: upsert the stats under `(job, data_type)` and cache
them in `_last_status`. -/
def persistStatus (st : ServiceState) (stats : SyncStats) : ServiceState :=
  { st with statusDoc := some stats, lastStatus := some stats }

/-- The environment a full sync runs against: adapter availability, the
fetched stock list (`none` = every source failed), the source that served
it, the latest trade date and daily valuation data, the outcome of the
`batchIdx`-th batch's `retryCount`-th write attempt, and the wall clock. -/
structure SyncEnv where
  adaptersAvailable : Bool
  stockRows : Option (List StockRow)
  sourceUsed : String
  latestTradeDate : Option String
  dailySource : String
  dailyDataMap : List (String × DailyMetrics)
  attempt : Nat → Nat → BulkAttempt
  now : Nat

/-- `batch_size = 500` from `run_full_sync`. -/
def batchSize : Nat := 500

/-- The daily valuation map actually built: only fetched when the latest
trade date is truthy. -/
def dailyMapOf (env : SyncEnv) : List (String × DailyMetrics) :=
  if PyStr.strTruthy env.latestTradeDate then env.dailyDataMap else []

/-- Processing of one stock row (`run_full_sync` lines 215–284): extract the
fields with `or ""` defaults, derive the 6-digit code (the part of `ts_code`
before `'.'`, else the zero-filled `symbol`), the exchange name from the
`ts_code` suffix, the full symbol and the daily metrics, and build the
upsert keyed by `(code, source)`. A falsy `source_used` skips the row (the
caller counts it as an error). -/
def processRow (sourceUsed : String) (dailyDataMap : List (String × DailyMetrics)) (now : Nat)
    (row : StockRow) : Option UpdateOp :=
  let name := row.name.getD ""
  let area := row.area.getD ""
  let industry := row.industry.getD ""
  let market := row.market.getD ""
  let listDate := row.list_date.getD ""
  let tsCode := row.ts_code.getD ""
  let code :=
    if tsCode.data.contains '.' then String.mk (tsCode.data.takeWhile (fun c => c ≠ '.'))
    else
      let symbol := row.symbol.getD ""
      if symbol ≠ "" then PyStr.zfill symbol 6 else ""
  let sse :=
    if ".SH".data.isSuffixOf tsCode.data then "上海证券交易所"
    else if ".SZ".data.isSuffixOf tsCode.data then "深圳证券交易所"
    else if ".BJ".data.isSuffixOf tsCode.data then "北京证券交易所"
    else "未知"
  let dailyMetrics := (dailyDataMap.lookup tsCode).getD []
  let fullSymbol := if tsCode ≠ "" then tsCode else generateFullSymbol code
  if sourceUsed = "" then none
  else
    let doc : BasicDoc :=
      { code := code, symbol := code, name := name, area := area, industry := industry,
        market := market, list_date := listDate, sse := sse, full_symbol := fullSymbol,
        category := "stock_cn", source := sourceUsed, updated_at := now,
        financial_snapshot := [] }
    some { filterCode := code, filterSource := sourceUsed,
           doc := addFinancialMetrics doc dailyMetrics }

/-- The mutable loop state of `run_full_sync` step 5: pending ops, the
running counters, the index of the next batch to execute, the collection,
and the trace of backoff sleeps performed so far. -/
structure BatchAcc where
  ops : List UpdateOp
  inserted : Nat
  updated : Nat
  errors : Nat
  batchIdx : Nat
  store : List BasicDoc
  sleeps : List Nat

/-- The batch execution block of `run_full_sync` (lines 291–306): run the
pending ops through `_execute_bulk_write_with_retry`; a batch reporting any
insert or update is accumulated, otherwise all its records are counted as
errors; either way the ops list is cleared and the loop continues. -/
def flushBatch (env : SyncEnv) (acc : BatchAcc) : BatchAcc :=
  let r := executeBulkWriteWithRetry (env.attempt acc.batchIdx) acc.store acc.ops 3
  let store2 := r.1.1
  let batchInserted := r.1.2.1
  let batchUpdated := r.1.2.2
  if batchInserted > 0 || batchUpdated > 0 then
    { ops := [], inserted := acc.inserted + batchInserted,
      updated := acc.updated + batchUpdated, errors := acc.errors,
      batchIdx := acc.batchIdx + 1, store := store2, sleeps := acc.sleeps ++ r.2 }
  else
    { ops := [], inserted := acc.inserted, updated := acc.updated,
      errors := acc.errors + acc.ops.length, batchIdx := acc.batchIdx + 1, store := store2,
      sleeps := acc.sleeps ++ r.2 }

/-- The `for idx, (_, row) in enumerate(stock_df.iterrows(), 1)` loop: each
row either queues an op or counts an error, and the batch is flushed when
500 ops are pending or the last row was processed. -/
def syncLoop (env : SyncEnv) (totalStocks : Nat) :
    List StockRow → Nat → BatchAcc → BatchAcc
  | [], _, acc => acc
  | row :: rest, idx, acc =>
    let acc :=
      match processRow env.sourceUsed (dailyMapOf env) env.now row with
      | some op => { acc with ops := acc.ops ++ [op] }
      | none => { acc with errors := acc.errors + 1 }
    let acc :=
      if acc.ops.length ≥ batchSize ∨ idx = totalStocks then
        if acc.ops = [] then acc else flushBatch env acc
      else acc
    syncLoop env totalStocks rest (idx + 1) acc

/-- The stats written right after the lock is taken. -/
def initialStats (now : Nat) : SyncStats :=
  { status := "running", started_at := some now }

/-- The stats written on the exception path of `run_full_sync`. -/
def failedStats (stats : SyncStats) (msg : String) (now : Nat) : SyncStats :=
  { stats with status := "failed", message := some msg, finished_at := some now }

/-- `MultiSourceBasicsSyncService.run_full_sync` (lines 143–332): the
singleton guard (already running and not forced ⇒ return the current status
untouched), then the status bookkeeping, the stock-list fetch, the batched
processing loop, and the final status write; the `finally` block clears the
running flag on every completing path. Returns the stats the coroutine
returns, the service state afterwards, and the trace of backoff sleeps. -/
def runFullSync (force : Bool) (env : SyncEnv) (st : ServiceState) :
    SyncStats × ServiceState × List Nat :=
  if st.running && !force then (getStatus st, st, [])
  else
    let st := { st with running := true }
    let stats := initialStats env.now
    let st := persistStatus st stats
    if !env.adaptersAvailable then
      let stats := failedStats stats "No available data sources found" env.now
      (stats, { persistStatus st stats with running := false }, [])
    else
      match env.stockRows with
      | none =>
        let stats := failedStats stats "All data sources failed to provide stock list" env.now
        (stats, { persistStatus st stats with running := false }, [])
      | some rows =>
        if rows.isEmpty then
          let stats := failedStats stats "All data sources failed to provide stock list"
            env.now
          (stats, { persistStatus st stats with running := false }, [])
        else
          let stats := { stats with
            data_sources_used := stats.data_sources_used ++ ["stock_list:" ++ env.sourceUsed],
            last_trade_date := env.latestTradeDate }
          let stats :=
            if PyStr.strTruthy env.latestTradeDate && !(dailyMapOf env).isEmpty then
              { stats with data_sources_used :=
                  stats.data_sources_used ++ ["daily_data:" ++ env.dailySource] }
            else stats
          let acc0 : BatchAcc :=
            { ops := [], inserted := 0, updated := 0, errors := 0, batchIdx := 0,
              store := st.basics, sleeps := [] }
          let acc := syncLoop env rows.length rows 1 acc0
          let stats := { stats with
            total := rows.length, inserted := acc.inserted, updated := acc.updated,
            errors := acc.errors,
            status := if acc.errors = 0 then "success" else "success_with_errors",
            finished_at := some env.now }
          let st := { st with basics := acc.store }
          let st := persistStatus st stats
          let st := { st with running := false }
          (stats, st, acc.sleeps)

/-- An attempt stream where every write attempt times out. -/
def timeoutEveryAttempt : Nat → BulkAttempt := fun _ => .timeout

end MultiSourceSync

/-- C1: if a stored quote exists whose (dash-normalized) trade date is at
least the latest bar's, the stored document is kept unchanged — in
particular an equal trade date never overwrites — and the store is
overwritten with the projected bar exactly when the bar's normalized trade
date is strictly greater. -/
theorem c1_quote_projection_guard (symbol6 : String) (latest : StockSyncRouter.DailyBarDoc)
    (q : StockSyncRouter.MarketQuoteDoc) (e h : String) (now : Nat)
    (hq : q.trade_date = some e) (he : e ≠ "")
    (hl : latest.trade_date = some h) (hh : h ≠ "") :
    (PyStr.pyGe (StockSyncRouter.normalizeDate e) (StockSyncRouter.normalizeDate h) = true →
      StockSyncRouter.syncLatestToMarketQuotes symbol6 (some latest) (some q) now = some q) ∧
    (PyStr.pyLt (StockSyncRouter.normalizeDate e) (StockSyncRouter.normalizeDate h) = true →
      StockSyncRouter.syncLatestToMarketQuotes symbol6 (some latest) (some q) now =
        some (StockSyncRouter.quoteDataOf symbol6 latest now)) := by
  constructor
  · intro hge
    simp [StockSyncRouter.syncLatestToMarketQuotes, hq, hl, PyStr.strTruthy, he, hh, hge]
  · intro hlt
    simp [StockSyncRouter.syncLatestToMarketQuotes, hq, hl, PyStr.strTruthy, he, hh,
      PyStr.pyGe, hlt]

/-- C1 witness: with a stored quote dated `2025-11-05` and a latest bar dated
`20251104` the stored quote survives unchanged. -/
theorem c1_quote_projection_guard_witness :
    StockSyncRouter.syncLatestToMarketQuotes "000001"
      (some { symbol := "000001", trade_date := some "20251104", close := none, openPx := none,
              high := none, low := none, volume := none, amount := none, pct_chg := none,
              pre_close := none })
      (some { code := "000001", symbol := "000001", close := none, openPx := none, high := none,
              low := none, volume := none, amount := none, pct_chg := none, pre_close := none,
              trade_date := some "2025-11-05", updated_at := 0 }) 7 =
      some { code := "000001", symbol := "000001", close := none, openPx := none, high := none,
              low := none, volume := none, amount := none, pct_chg := none, pre_close := none,
              trade_date := some "2025-11-05", updated_at := 0 } :=
  (c1_quote_projection_guard "000001" _ _ "2025-11-05" "20251104" 7 rfl (by decide) rfl
    (by decide)).1 (by decide)

/-- C10: if the stored quote's trade date is missing or empty, the guard is
skipped and the latest bar unconditionally overwrites the stored quote. -/
theorem c10_missing_trade_date_overwrites (symbol6 : String)
    (latest : StockSyncRouter.DailyBarDoc) (q : StockSyncRouter.MarketQuoteDoc) (now : Nat)
    (hq : q.trade_date = none ∨ q.trade_date = some "") :
    StockSyncRouter.syncLatestToMarketQuotes symbol6 (some latest) (some q) now =
      some (StockSyncRouter.quoteDataOf symbol6 latest now) := by
  rcases hq with hq | hq <;>
    simp [StockSyncRouter.syncLatestToMarketQuotes, hq, PyStr.strTruthy]

/-- C10 witness: a stored quote with an empty trade date is overwritten even
though the incoming bar is older by date. -/
theorem c10_missing_trade_date_overwrites_witness :
    StockSyncRouter.syncLatestToMarketQuotes "000001"
      (some { symbol := "000001", trade_date := some "20200101", close := none, openPx := none,
              high := none, low := none, volume := none, amount := none, pct_chg := none,
              pre_close := none })
      (some { code := "000001", symbol := "000001", close := none, openPx := none, high := none,
              low := none, volume := none, amount := none, pct_chg := none, pre_close := none,
              trade_date := some "", updated_at := 3 }) 7 =
      some (StockSyncRouter.quoteDataOf "000001"
        { symbol := "000001", trade_date := some "20200101", close := none, openPx := none,
          high := none, low := none, volume := none, amount := none, pct_chg := none,
          pre_close := none } 7) :=
  c10_missing_trade_date_overwrites "000001" _ _ 7 (Or.inr rfl)

/-- C3: evaluation of `_update_metrics` at the failing input — a probe that
reported success but took 31 s, beyond the configured 30 s
`response_time_threshold`, is nevertheless recorded as a success: the
failure counters stay at zero and the status becomes `healthy`. The
threshold field is assigned in `__init__` but never consulted by
`_update_metrics`. -/
theorem c3_slow_success_probe_counted_as_success :
    (31 : ℚ) > HealthMonitor.responseTimeThreshold ∧
    (HealthMonitor.updateMetrics {} true none 31 5).failure_count = 0 ∧
    (HealthMonitor.updateMetrics {} true none 31 5).consecutive_failures = 0 ∧
    (HealthMonitor.updateMetrics {} true none 31 5).success_count = 1 ∧
    (HealthMonitor.updateMetrics {} true none 31 5).status = .healthy := by
  refine ⟨by norm_num [HealthMonitor.responseTimeThreshold], ?_, ?_, ?_, ?_⟩ <;>
    norm_num [HealthMonitor.updateMetrics]

/-- Helper: the accumulation loop of `_calculate_overall_consistency` computes
the pair (total weight, weighted score) as list sums. -/
theorem foldl_accumulateComparison_eq
    (comps : List ConsistencyChecker.FinancialMetricComparison) (a b : ℚ) :
    comps.foldl ConsistencyChecker.accumulateComparison (a, b) =
      (a + ConsistencyChecker.totalWeightOf comps,
       b + ConsistencyChecker.specClaimedScore comps) := by
  induction comps generalizing a b with
  | nil => simp [ConsistencyChecker.totalWeightOf, ConsistencyChecker.specClaimedScore]
  | cons c cs ih =>
    simp only [List.foldl_cons, ih, ConsistencyChecker.accumulateComparison,
      ConsistencyChecker.totalWeightOf, ConsistencyChecker.specClaimedScore, List.map_cons,
      List.sum_cons, Prod.mk.injEq]
    exact ⟨by ring, by ring⟩

/-- C4 counterexample: for the single comparison of `pe` with a zero relative
delta, the code's confidence score is 1 (the weighted average over the
compared fields), while the claimed un-normalized sum Σ wᵢ·max(0,1−δᵢ/tolᵢ)
is only the `pe` weight 0.25. -/
theorem c4_confidence_score_counterexample :
    (ConsistencyChecker.calculateOverallConsistency
        [{ metric_name := "pe", primary_value := some 10, secondary_value := some 10,
           difference_pct := .finite 0, is_significant := false, tolerance := 5/100 }]
        "tushare" "akshare").confidence_score = 1 ∧
    ConsistencyChecker.specClaimedScore
        [{ metric_name := "pe", primary_value := some 10, secondary_value := some 10,
           difference_pct := .finite 0, is_significant := false, tolerance := 5/100 }] = 1/4 ∧
    (1 : ℚ) ≠ 1/4 := by
  refine ⟨?_, ?_, by norm_num⟩ <;>
    norm_num [ConsistencyChecker.calculateOverallConsistency,
      ConsistencyChecker.accumulateComparison, ConsistencyChecker.specClaimedScore,
      ConsistencyChecker.consistencyScoreOf, ConsistencyChecker.weightOf,
      ConsistencyChecker.metricWeights, List.lookup, max_def]

/-- C4 (amended): for every consistency check with at least one comparable
field, the confidence score is the weighted average over the compared
fields — Σ wᵢ·max(0,1−δᵢ/tolᵢ) divided by Σ wᵢ (0 if the total weight is
not positive) — and the configured per-field weights do sum to 1.0; the
un-normalized sum of the claim is only obtained when the compared weights
happen to sum to 1. -/
theorem c4_confidence_is_normalized_weighted_score
    (comp : ConsistencyChecker.FinancialMetricComparison)
    (comps : List ConsistencyChecker.FinancialMetricComparison) (p s : String) :
    (ConsistencyChecker.calculateOverallConsistency (comp :: comps) p s).confidence_score =
      (if ConsistencyChecker.totalWeightOf (comp :: comps) > 0 then
        ConsistencyChecker.specClaimedScore (comp :: comps) /
          ConsistencyChecker.totalWeightOf (comp :: comps)
      else 0) ∧
    (ConsistencyChecker.metricWeights.map Prod.snd).sum = 1 := by
  constructor
  · have h : (comp :: comps : List ConsistencyChecker.FinancialMetricComparison) ≠ [] := by
      simp
    simp only [ConsistencyChecker.calculateOverallConsistency, if_neg h,
      foldl_accumulateComparison_eq, zero_add]
  · norm_num [ConsistencyChecker.metricWeights]

/-- C6 counterexample: a consistency check that finds no comparable metric
produces a result with confidence score 0 (≤ 0.3) whose directive is
`use_primary_only`, not the `investigate_sources` the ladder of the claim
requires for scores ≤ 0.3. -/
theorem c6_decision_ladder_counterexample :
    (ConsistencyChecker.calculateOverallConsistency [] "tushare" "akshare").confidence_score
        ≤ 3/10 ∧
    (ConsistencyChecker.calculateOverallConsistency [] "tushare" "akshare").recommended_action
        ≠ "investigate_sources" ∧
    (ConsistencyChecker.calculateOverallConsistency [] "tushare" "akshare").recommended_action
        = "use_primary_only" := by
  refine ⟨by norm_num [ConsistencyChecker.calculateOverallConsistency], ?_, ?_⟩ <;>
    simp [ConsistencyChecker.calculateOverallConsistency]

/-- C6 (amended): for every consistency-check result computed from at least
one comparison, the recommended directive is exactly the ladder of the
claim applied to the result's confidence score; a check with no comparable
field short-circuits to score 0 with directive `use_primary_only` instead
of `investigate_sources`. -/
theorem c6_decision_ladder
    (comp : ConsistencyChecker.FinancialMetricComparison)
    (comps : List ConsistencyChecker.FinancialMetricComparison) (p s : String) :
    ((ConsistencyChecker.calculateOverallConsistency (comp :: comps) p s).recommended_action =
      ConsistencyChecker.specDecision
        ((ConsistencyChecker.calculateOverallConsistency (comp :: comps) p s).confidence_score)) ∧
    (ConsistencyChecker.calculateOverallConsistency [] p s).recommended_action =
      "use_primary_only" ∧
    (ConsistencyChecker.calculateOverallConsistency [] p s).confidence_score = 0 := by
  refine ⟨?_, by simp [ConsistencyChecker.calculateOverallConsistency],
    by simp [ConsistencyChecker.calculateOverallConsistency]⟩
  simp only [ConsistencyChecker.calculateOverallConsistency, ConsistencyChecker.specDecision]
  simp

/-- Helper: one `LRUCache.get` increments exactly one of the two counters. -/
theorem lruGet_counters {α : Type} (c : CacheOptimizer.LRUCache α) (key : String) (now : Int) :
    ((c.get key now).2).hits + ((c.get key now).2).misses = c.hits + c.misses + 1 := by
  unfold CacheOptimizer.LRUCache.get
  cases c.lookup key with
  | none => simp; omega
  | some e =>
    by_cases h : e.isExpired now = true
    · simp [h]; omega
    · simp only [Bool.not_eq_true] at h
      simp [h]
      omega

/-- Helper: counters over a whole sequence of `get` calls. -/
theorem lruRunGets_counters {α : Type} (calls : List (String × Int))
    (c : CacheOptimizer.LRUCache α) :
    (c.runGets calls).2.hits + (c.runGets calls).2.misses =
      c.hits + c.misses + calls.length := by
  induction calls generalizing c with
  | nil => simp [CacheOptimizer.LRUCache.runGets]
  | cons kt rest ih =>
    obtain ⟨k, t⟩ := kt
    have h1 := lruGet_counters c k t
    have h2 := ih ((c.get k t).2)
    simp only [CacheOptimizer.LRUCache.runGets, List.length_cons]
    omega

/-- C7: (a) over any sequence of `get` calls the hit counter plus the miss
counter grows by exactly the number of calls; (b) a `get` that returns a
value returns the stored entry's value and that entry satisfies
`created_at + ttl ≥ now`; (c) a `get` that finds an entry past its TTL
removes the entry and counts a miss. -/
theorem c7_cache_counters_and_no_stale_hit {α : Type} :
    (∀ (c : CacheOptimizer.LRUCache α) (calls : List (String × Int)),
      (c.runGets calls).2.hits + (c.runGets calls).2.misses =
        c.hits + c.misses + calls.length) ∧
    (∀ (c : CacheOptimizer.LRUCache α) (key : String) (now : Int) (v : α)
      (c' : CacheOptimizer.LRUCache α),
      c.get key now = (some v, c') →
      ∃ e, c.lookup key = some e ∧ v = e.value ∧ ¬ (e.created_at + e.ttl < now)) ∧
    (∀ (c : CacheOptimizer.LRUCache α) (key : String) (now : Int)
      (e : CacheOptimizer.CacheEntry α),
      c.lookup key = some e → e.isExpired now = true →
      c.get key now =
        (none, { c with cache := CacheOptimizer.removeKey c.cache key,
                        misses := c.misses + 1 })) := by
  refine ⟨fun c calls => lruRunGets_counters calls c, ?_, ?_⟩
  · intro c key now v c' hget
    unfold CacheOptimizer.LRUCache.get at hget
    cases hl : c.lookup key with
    | none => rw [hl] at hget; simp at hget
    | some e =>
      rw [hl] at hget
      by_cases hexp : e.isExpired now = true
      · simp [hexp] at hget
      · simp only [Bool.not_eq_true] at hexp
        simp only [hexp, Bool.false_eq_true, if_false, CacheOptimizer.CacheEntry.touch,
          Prod.mk.injEq, Option.some.injEq] at hget
        refine ⟨e, rfl, hget.1.symm, ?_⟩
        simp only [CacheOptimizer.CacheEntry.isExpired, decide_eq_false_iff_not, not_lt] at hexp
        omega
  · intro c key now e hl hexp
    unfold CacheOptimizer.LRUCache.get
    rw [hl]
    simp [hexp]

/-- C7 witness: a cache holding one entry inserted at time 0 with TTL 10,
probed at time 11, deletes the entry and counts a miss. -/
theorem c7_cache_counters_and_no_stale_hit_witness :
    CacheOptimizer.LRUCache.get
      (α := Nat)
      { max_size := 100,
        cache := [("k", { key := "k", value := 7, created_at := 0, ttl := 10, hits := 0,
                          last_access := 0 })],
        hits := 0, misses := 0 } "k" 11 =
      (none,
        { max_size := 100,
          cache := CacheOptimizer.removeKey
            [("k", { key := "k", value := 7, created_at := 0, ttl := 10, hits := 0,
                     last_access := 0 })] "k",
          hits := 0, misses := 0 + 1 }) :=
  (c7_cache_counters_and_no_stale_hit (α := Nat)).2.2
    { max_size := 100,
      cache := [("k", { key := "k", value := 7, created_at := 0, ttl := 10, hits := 0,
                        last_access := 0 })],
      hits := 0, misses := 0 } "k" 11
    { key := "k", value := 7, created_at := 0, ttl := 10, hits := 0, last_access := 0 }
    (by decide) (by decide)

/-- Helper: looking up a key just removed yields nothing. -/
theorem lookup_removeKey_self {α : Type} (l : List (String × CacheOptimizer.CacheEntry α))
    (key : String) : List.lookup key (CacheOptimizer.removeKey l key) = none := by
  induction l with
  | nil => simp [CacheOptimizer.removeKey]
  | cons p rest ih =>
    by_cases h : p.1 = key
    · simpa [CacheOptimizer.removeKey, h] using ih
    · have hb : (p.1 != key) = true := by simp [h]
      have hk : (key == p.1) = false := by
        simp [BEq.comm]
        exact fun hkk => h hkk.symm
      simp only [CacheOptimizer.removeKey, List.filter_cons, hb, if_true]
      simpa [List.lookup, hk, CacheOptimizer.removeKey] using ih

/-- Helper: lookup distributes over append. -/
theorem lookup_append_or {α : Type} (l₁ l₂ : List (String × CacheOptimizer.CacheEntry α))
    (key : String) :
    List.lookup key (l₁ ++ l₂) = (List.lookup key l₁).or (List.lookup key l₂) := by
  induction l₁ with
  | nil => simp [List.lookup]
  | cons p rest ih =>
    by_cases h : (key == p.1) = true
    · simp [List.lookup, h]
    · have h' : (key == p.1) = false := by simpa using h
      simp [List.lookup, h', ih]

/-- Helper: after `move_to_end` with entry `e`, the key maps to `e`. -/
theorem lookup_moveToEnd {α : Type} (l : List (String × CacheOptimizer.CacheEntry α))
    (key : String) (e : CacheOptimizer.CacheEntry α) :
    List.lookup key (CacheOptimizer.moveToEnd l key e) = some e := by
  unfold CacheOptimizer.moveToEnd
  rw [lookup_append_or, lookup_removeKey_self]
  simp [List.lookup]

/-- C9: re-`set`ting an existing key overwrites its value and TTL but keeps
the original `created_at`, so a `get` at a time farther than the new TTL
from the original insertion misses and deletes the entry even though the
`set` just happened. -/
theorem c9_reset_keeps_created_at {α : Type} (c : CacheOptimizer.LRUCache α) (key : String)
    (v : α) (ttl now : Int) (e : CacheOptimizer.CacheEntry α)
    (hl : c.lookup key = some e) :
    ((c.set key v ttl now).lookup key = some { e with value := v, ttl := ttl }) ∧
    (now - e.created_at > ttl →
      (c.set key v ttl now).get key now =
        (none, { c.set key v ttl now with
                 cache := CacheOptimizer.removeKey (c.set key v ttl now).cache key,
                 misses := (c.set key v ttl now).misses + 1 })) := by
  have hset : (c.set key v ttl now).lookup key = some { e with value := v, ttl := ttl } := by
    unfold CacheOptimizer.LRUCache.set
    rw [hl]
    exact lookup_moveToEnd _ _ _
  refine ⟨hset, fun hexp => ?_⟩
  unfold CacheOptimizer.LRUCache.get
  rw [hset]
  have : CacheOptimizer.CacheEntry.isExpired { e with value := v, ttl := ttl } now = true := by
    simp [CacheOptimizer.CacheEntry.isExpired]
    omega
  simp [this]

/-- C9 witness: key inserted at time 0 with TTL 100, re-set at time 10 with
TTL 5: the updated entry keeps `created_at = 0`, and the immediate `get` at
time 10 misses. -/
theorem c9_reset_keeps_created_at_witness :
    (CacheOptimizer.LRUCache.set
        (α := Nat)
        { max_size := 100,
          cache := [("k", { key := "k", value := 7, created_at := 0, ttl := 100, hits := 0,
                            last_access := 0 })],
          hits := 0, misses := 0 } "k" 8 5 10).lookup "k" =
      some { key := "k", value := 8, created_at := 0, ttl := 5, hits := 0, last_access := 0 } :=
  (c9_reset_keeps_created_at
    (α := Nat)
    { max_size := 100,
      cache := [("k", { key := "k", value := 7, created_at := 0, ttl := 100, hits := 0,
                        last_access := 0 })],
      hits := 0, misses := 0 } "k" 8 5 10
    { key := "k", value := 7, created_at := 0, ttl := 100, hits := 0, last_access := 0 }
    (by decide)).1

/-- Helper: a document surviving `pruneOld` for its own user is within the
retention window. -/
theorem pruneOld_mem_cutoff (uid : String) (now : Int)
    (docs : List Notifications.NotificationDoc) (d : Notifications.NotificationDoc)
    (hd : d ∈ Notifications.pruneOld uid now docs) (huser : d.user_id = uid) :
    Notifications.retentionCutoff now ≤ d.created_at := by
  unfold Notifications.pruneOld at hd
  have h := (List.mem_filter.mp hd).2
  simp only [huser, BEq.refl, Bool.true_and, Bool.not_eq_true', decide_eq_false_iff_not,
    not_lt] at h
  exact h

/-- Helper: `pruneQuota` only deletes documents. -/
theorem pruneQuota_sublist (uid : String) (docs : List Notifications.NotificationDoc) :
    (Notifications.pruneQuota uid docs).Sublist docs := by
  unfold Notifications.pruneQuota
  by_cases h : docs.countP (fun d => d.user_id == uid) > Notifications.maxPerUser
  · simp only [if_pos h]
    exact List.filter_sublist docs
  · simp only [if_neg h]
    exact List.Sublist.refl docs

/-- Helper: deleting the ids of the first `k` elements of a list whose ids
are distinct keeps exactly the remaining `length − k` elements. -/
theorem filter_not_take_ids_length (l : List Notifications.NotificationDoc) (k : Nat)
    (hnodup : (l.map (fun d => d.id)).Nodup) :
    (l.filter (fun d =>
        !(((l.take k).map (fun d => d.id)).contains d.id))).length = l.length - k := by
  have hsplit_ids : (l.take k).map (fun d => d.id) ++ (l.drop k).map (fun d => d.id) =
      l.map (fun d => d.id) := by
    rw [← List.map_append, List.take_append_drop]
  have hdisj := (List.nodup_append.mp (hsplit_ids ▸ hnodup)).2.2
  have htake : (l.take k).filter (fun d =>
      !(((l.take k).map (fun d => d.id)).contains d.id)) = [] := by
    refine List.filter_eq_nil_iff.mpr ?_
    intro x hx
    have hmem : x.id ∈ (l.take k).map (fun d => d.id) := List.mem_map_of_mem _ hx
    rw [List.map_take] at hmem
    simp [hmem]
  have hdrop : (l.drop k).filter (fun d =>
      !(((l.take k).map (fun d => d.id)).contains d.id)) = l.drop k := by
    refine List.filter_eq_self.mpr ?_
    intro x hx
    have hxid : x.id ∈ (l.drop k).map (fun d => d.id) := List.mem_map_of_mem _ hx
    have hnotin : x.id ∉ (l.take k).map (fun d => d.id) := fun hin => hdisj hin hxid
    rw [List.map_take] at hnotin
    simp [hnotin]
  calc (l.filter (fun d => !(((l.take k).map (fun d => d.id)).contains d.id))).length
      = ((l.take k).filter (fun d => !(((l.take k).map (fun d => d.id)).contains d.id)) ++
         (l.drop k).filter (fun d =>
           !(((l.take k).map (fun d => d.id)).contains d.id))).length := by
        rw [← List.filter_append, List.take_append_drop]
    _ = (l.drop k).length := by rw [htake, hdrop, List.nil_append]
    _ = l.length - k := List.length_drop k l

/-- Helper: when the stored ids are distinct, `pruneQuota` leaves the user
with at most `max_per_user` documents. -/
theorem pruneQuota_countP_le (uid : String) (docs : List Notifications.NotificationDoc)
    (hnodup : (docs.map (fun d => d.id)).Nodup) :
    (Notifications.pruneQuota uid docs).countP (fun d => d.user_id == uid) ≤
      Notifications.maxPerUser := by
  unfold Notifications.pruneQuota
  by_cases h : docs.countP (fun d => d.user_id == uid) > Notifications.maxPerUser
  case neg => simp only [if_neg h]; omega
  case pos =>
    simp only [if_pos h]
    have hperm : (List.insertionSort Notifications.createdAtLe
        (docs.filter (fun d => d.user_id == uid))).Perm
        (docs.filter (fun d => d.user_id == uid)) := List.perm_insertionSort _ _
    have hnodup_user : ((docs.filter (fun d => d.user_id == uid)).map
        (fun d => d.id)).Nodup :=
      hnodup.sublist ((List.filter_sublist docs).map _)
    have hnodup_sorted : ((List.insertionSort Notifications.createdAtLe
        (docs.filter (fun d => d.user_id == uid))).map (fun d => d.id)).Nodup :=
      ((hperm.map _).nodup_iff).mpr hnodup_user
    have hcount : ∀ qq : Notifications.NotificationDoc → Bool,
        List.countP (fun d => d.user_id == uid) (List.filter qq docs) =
          (List.filter qq (docs.filter (fun d => d.user_id == uid))).length := by
      intro qq
      rw [List.countP_eq_length_filter, List.filter_filter, List.filter_filter]
      congr 1
      exact List.filter_congr (fun x _ => Bool.and_comm _ _)
    rw [hcount]
    rw [((hperm.filter _).length_eq).symm.trans
      (filter_not_take_ids_length _ _ hnodup_sorted)]
    rw [hperm.length_eq, ← List.countP_eq_length_filter]
    omega

/-- C8: after every `create_and_publish` the publishing user's persisted
notifications satisfy the retention policy — at most 1000 documents remain
for the user and none of them was created more than 90 days before the
write — provided the stored ids are distinct and below the next insert id
(both hold for MongoDB ObjectIds). -/
theorem c8_notification_retention (store : Notifications.NotifStore)
    (payload : Notifications.NotificationCreate) (now : Int)
    (hnodup : (store.docs.map (fun d => d.id)).Nodup)
    (hbound : ∀ d ∈ store.docs, d.id < store.nextId) :
    ((Notifications.createAndPublish store payload now).1.docs.countP
        (fun d => d.user_id == payload.user_id) ≤ Notifications.maxPerUser) ∧
    (∀ d ∈ (Notifications.createAndPublish store payload now).1.docs,
      d.user_id = payload.user_id →
      Notifications.retentionCutoff now ≤ d.created_at) := by
  unfold Notifications.createAndPublish
  set doc : Notifications.NotificationDoc :=
    { id := store.nextId
      user_id := payload.user_id
      ntype := payload.ntype
      title := payload.title
      content := payload.content
      link := payload.link
      source := payload.source
      severity := payload.severity.getD "info"
      status := "unread"
      created_at := now } with hdoc
  have hnodup1 : ((store.docs ++ [doc]).map (fun d => d.id)).Nodup := by
    rw [List.map_append]
    refine List.nodup_append.mpr ⟨hnodup, by simp, ?_⟩
    intro a ha hb
    simp only [List.map_cons, List.map_nil, List.mem_singleton] at hb
    obtain ⟨d, hd, hda⟩ := List.mem_map.mp ha
    have hlt := hbound d hd
    have hb' : a = store.nextId := by simpa [hdoc] using hb
    omega
  have hnodup2 : ((Notifications.pruneOld payload.user_id now
      (store.docs ++ [doc])).map (fun d => d.id)).Nodup :=
    hnodup1.sublist ((List.filter_sublist _).map _)
  constructor
  · exact pruneQuota_countP_le payload.user_id _ hnodup2
  · intro d hd huser
    have hd2 := (pruneQuota_sublist payload.user_id _).mem hd
    exact pruneOld_mem_cutoff payload.user_id now _ d hd2 huser

/-- C8 witness: publishing into an empty store leaves exactly the one fresh
document for the user, within both retention bounds. -/
theorem c8_notification_retention_witness :
    ((Notifications.createAndPublish { docs := [], nextId := 0 }
        { user_id := "u1", ntype := "system", title := "t", content := none, link := none,
          source := none, severity := none } 0).1.docs.countP
        (fun d => d.user_id == "u1") ≤ Notifications.maxPerUser) ∧
    (∀ d ∈ (Notifications.createAndPublish { docs := [], nextId := 0 }
        { user_id := "u1", ntype := "system", title := "t", content := none, link := none,
          source := none, severity := none } 0).1.docs,
      d.user_id = "u1" → Notifications.retentionCutoff 0 ≤ d.created_at) :=
  c8_notification_retention { docs := [], nextId := 0 }
    { user_id := "u1", ntype := "system", title := "t", content := none, link := none,
      source := none, severity := none } 0 (by decide) (by decide)

/-- C2: invoking `run_full_sync` with `force=False` while the job is already
running starts nothing: it returns the current status and leaves the whole
service state — the running flag, the cached and persisted status, and the
`stock_basic_info` collection — exactly as it was, with no backoff sleeps. -/
theorem c2_singleton_guard (env : MultiSourceSync.SyncEnv)
    (st : MultiSourceSync.ServiceState) (h : st.running = true) :
    MultiSourceSync.runFullSync false env st = (MultiSourceSync.getStatus st, st, []) := by
  simp [MultiSourceSync.runFullSync, h]

/-- C2 witness: a concrete running service is returned untouched together
with its current status. -/
theorem c2_singleton_guard_witness :
    MultiSourceSync.runFullSync false
      { adaptersAvailable := true, stockRows := some [], sourceUsed := "tushare",
        latestTradeDate := none, dailySource := "", dailyDataMap := [],
        attempt := fun _ => MultiSourceSync.timeoutEveryAttempt, now := 11 }
      { running := true, lastStatus := some { status := "running" }, statusDoc := none,
        basics := [] } =
      (MultiSourceSync.getStatus
        { running := true, lastStatus := some { status := "running" }, statusDoc := none,
          basics := [] },
       { running := true, lastStatus := some { status := "running" }, statusDoc := none,
         basics := [] }, []) :=
  c2_singleton_guard
    { adaptersAvailable := true, stockRows := some [], sourceUsed := "tushare",
      latestTradeDate := none, dailySource := "", dailyDataMap := [],
      attempt := fun _ => MultiSourceSync.timeoutEveryAttempt, now := 11 }
    { running := true, lastStatus := some { status := "running" }, statusDoc := none,
      basics := [] } rfl

/-- C5 counterexample: when every write attempt for a batch times out, the
retry helper sleeps 2 s and then 4 s — the claimed 8 s backoff never
happens (after the third failed attempt the helper returns `(0, 0)` without
sleeping again). -/
theorem c5_backoff_counterexample :
    (MultiSourceSync.executeBulkWriteWithRetry MultiSourceSync.timeoutEveryAttempt [] [] 3).2 =
      [2, 4] ∧
    8 ∉ (MultiSourceSync.executeBulkWriteWithRetry MultiSourceSync.timeoutEveryAttempt
          [] [] 3).2 ∧
    (MultiSourceSync.executeBulkWriteWithRetry MultiSourceSync.timeoutEveryAttempt
        [] [] 3).1.2 = (0, 0) := by
  refine ⟨rfl, by decide, rfl⟩

/-- C5 (amended): when every write attempt of a batch times out, the batch is
retried with exponential-backoff sleeps of 2 s and then 4 s (three attempts
in total, with no 8 s wait); after the third failure every record of the
batch is counted as an error, the store is left unwritten, and the sync job
runs on to completion with status `success_with_errors` instead of
aborting. Shown on a three-row stock list with arbitrary row contents and
an arbitrary starting collection. -/
theorem c5_timeout_batch_errors_and_continues (r1 r2 r3 : MultiSourceSync.StockRow)
    (basics : List MultiSourceSync.BasicDoc) (n : Nat) :
    (MultiSourceSync.runFullSync false
        { adaptersAvailable := true, stockRows := some [r1, r2, r3],
          sourceUsed := "tushare", latestTradeDate := none, dailySource := "",
          dailyDataMap := [], attempt := fun _ _ => .timeout, now := n }
        { running := false, lastStatus := none, statusDoc := none,
          basics := basics }).2.2 = [2, 4] ∧
    (MultiSourceSync.runFullSync false
        { adaptersAvailable := true, stockRows := some [r1, r2, r3],
          sourceUsed := "tushare", latestTradeDate := none, dailySource := "",
          dailyDataMap := [], attempt := fun _ _ => .timeout, now := n }
        { running := false, lastStatus := none, statusDoc := none,
          basics := basics }).1.errors = 3 ∧
    (MultiSourceSync.runFullSync false
        { adaptersAvailable := true, stockRows := some [r1, r2, r3],
          sourceUsed := "tushare", latestTradeDate := none, dailySource := "",
          dailyDataMap := [], attempt := fun _ _ => .timeout, now := n }
        { running := false, lastStatus := none, statusDoc := none,
          basics := basics }).1.inserted = 0 ∧
    (MultiSourceSync.runFullSync false
        { adaptersAvailable := true, stockRows := some [r1, r2, r3],
          sourceUsed := "tushare", latestTradeDate := none, dailySource := "",
          dailyDataMap := [], attempt := fun _ _ => .timeout, now := n }
        { running := false, lastStatus := none, statusDoc := none,
          basics := basics }).1.status = "success_with_errors" ∧
    (MultiSourceSync.runFullSync false
        { adaptersAvailable := true, stockRows := some [r1, r2, r3],
          sourceUsed := "tushare", latestTradeDate := none, dailySource := "",
          dailyDataMap := [], attempt := fun _ _ => .timeout, now := n }
        { running := false, lastStatus := none, statusDoc := none,
          basics := basics }).1.finished_at = some n ∧
    (MultiSourceSync.runFullSync false
        { adaptersAvailable := true, stockRows := some [r1, r2, r3],
          sourceUsed := "tushare", latestTradeDate := none, dailySource := "",
          dailyDataMap := [], attempt := fun _ _ => .timeout, now := n }
        { running := false, lastStatus := none, statusDoc := none,
          basics := basics }).2.1.basics = basics ∧
    (MultiSourceSync.runFullSync false
        { adaptersAvailable := true, stockRows := some [r1, r2, r3],
          sourceUsed := "tushare", latestTradeDate := none, dailySource := "",
          dailyDataMap := [], attempt := fun _ _ => .timeout, now := n }
        { running := false, lastStatus := none, statusDoc := none,
          basics := basics }).2.1.running = false := by
  refine ⟨?_, ?_, ?_, ?_, ?_, ?_, ?_⟩ <;>
    simp [MultiSourceSync.runFullSync, MultiSourceSync.syncLoop, MultiSourceSync.flushBatch,
      MultiSourceSync.executeBulkWriteWithRetry, MultiSourceSync.bulkWriteLoop,
      MultiSourceSync.processRow, MultiSourceSync.batchSize, MultiSourceSync.persistStatus,
      MultiSourceSync.initialStats, MultiSourceSync.dailyMapOf, PyStr.strTruthy]
